import Mathlib

/-!
Shallow embedding of the JWT authentication pipeline of `mpc-backend-mock`
(`server/src/web/middleware/jwks.rs`, `server/src/web/middleware/auth.rs`,
`server/src/keycloak_client`).  Network I/O is modelled by passing the
outcome of each HTTP interaction as an explicit argument.  Monotone time
(`std::time::Instant`) is a natural number of seconds; wall-clock time used
for `exp` validation is an integer.  HTTP header values are lists of byte
values.  Error strings follow the source format strings, with quote
characters elided.
-/

deriving instance DecidableEq for Except

namespace MpcAuth

/-- Model of `jsonwebtoken::jwk::Jwk`.  `key_id` is the `kid` of the key
(`common.key_id`); `key_data` abstracts the key material: a token counts as
correctly signed by this key exactly when the token's `sigKey` equals
`key_data`; `parses` records whether `DecodingKey::from_jwk` accepts the
key material. -/
structure Jwk where
  key_id : Option String
  key_data : Nat
  parses : Bool
deriving DecidableEq, Repr

/-- Model of `jsonwebtoken::jwk::JwkSet`. -/
structure JwkSet where
  keys : List Jwk
deriving DecidableEq, Repr

/-- Model of `JwkSet::find`: the first key whose `key_id` equals the wanted
`kid`. -/
def JwkSet.find (s : JwkSet) (kid : String) : Option Jwk :=
  s.keys.find? (fun j => j.key_id == some kid)

/-- Model of `JwksCache` from `jwks.rs`: the optional cached key set and the
`Instant` of the last successful fetch. -/
structure JwksCache where
  jwks : Option JwkSet
  last_fetch : Option Nat
deriving DecidableEq, Repr

/-- Model of `JwksError` from `jwks.rs`; reqwest error sources are modelled
as strings. -/
inductive JwksError where
  | HttpClient (source : String)
  | FetchJwks (source : String)
  | ParseJwks (source : String)
  | FetchFailed (status : Nat) (url : String)
  | KeyNotFound (kid : String)
deriving DecidableEq, Repr

/-- Display strings of `JwksError` per the snafu `display` attributes
(quote characters elided). -/
def jwksErrorMessage : JwksError → String
  | .HttpClient s => "Failed to create HTTP client: " ++ s
  | .FetchJwks s => "Failed to fetch JWKS: " ++ s
  | .ParseJwks s => "Failed to parse JWKS: " ++ s
  | .FetchFailed st url => "JWKS fetch failed with status " ++ toString st ++ " from " ++ url
  | .KeyNotFound kid => "Key with kid " ++ kid ++ " not found in JWKS"

/-- Outcome of one HTTP GET of the JWKS document, supplied by the
environment: the body parsed successfully, the send failed, the status was
not a success, or the body failed to parse. -/
inductive FetchResult where
  | success (jwks : JwkSet)
  | sendError (source : String)
  | badStatus (status : Nat)
  | bodyError (source : String)
deriving DecidableEq, Repr

/-- Cache freshness window of `get_jwk`: 300 seconds. -/
def jwksCacheTtl : Nat := 300

/-- Model of `JwksClient::fetch_jwks`. -/
def fetch_jwks (url : String) (f : FetchResult) : Except JwksError JwkSet :=
  match f with
  | .success jwks => .ok jwks
  | .sendError s => .error (.FetchJwks s)
  | .badStatus st => .error (.FetchFailed st url)
  | .bodyError s => .error (.ParseJwks s)

/-- Read path of `JwksClient::get_jwk`: the cached key, provided the cache
is populated, fresh (strictly within the TTL) and contains the `kid`. -/
def cacheLookup (c : JwksCache) (now : Nat) (kid : String) : Option Jwk :=
  match c.jwks, c.last_fetch with
  | some jwks, some lf => if now - lf < jwksCacheTtl then jwks.find kid else none
  | _, _ => none

/-- Result of one `get_jwk` call: the returned value, the cache state after
the call, and how many network fetches the call performed. -/
structure GetJwkOutcome where
  result : Except JwksError Jwk
  cache : JwksCache
  fetches : Nat
deriving DecidableEq, Repr

/-- Model of `JwksClient::get_jwk`: serve from the cache when fresh and
present; otherwise fetch the full key set, look the `kid` up in the fetched
data, and only on success store the fetched set with the current instant. -/
def get_jwk (c : JwksCache) (now : Nat) (kid : String) (url : String)
    (f : FetchResult) : GetJwkOutcome :=
  match cacheLookup c now kid with
  | some jwk => ⟨.ok jwk, c, 0⟩
  | none =>
    match fetch_jwks url f with
    | .error e => ⟨.error e, c, 1⟩
    | .ok jwks =>
      match jwks.find kid with
      | none => ⟨.error (.KeyNotFound kid), c, 1⟩
      | some jwk => ⟨.ok jwk, ⟨some jwks, some now⟩, 1⟩

/-- Trace of consecutive `get_jwk` calls for one `kid`: each list entry is
the instant of the call and the environment's response to a fetch, were one
to happen.  Returns the final cache, the per-call results, and the total
number of network fetches performed. -/
def runGetJwk (c : JwksCache) (calls : List (Nat × FetchResult)) (kid : String)
    (url : String) : JwksCache × List (Except JwksError Jwk) × Nat :=
  match calls with
  | [] => (c, [], 0)
  | (t, f) :: rest =>
    let o := get_jwk c t kid url f
    let r := runGetJwk o.cache rest kid url
    (r.1, o.result :: r.2.1, o.fetches + r.2.2)

/-- Model of the `Claims` struct of `auth.rs` (the token payload). -/
structure Claims where
  sub : String
  iat : Int
  exp : Int
  aud : Option String
  iss : Option String
  email : Option String
  preferred_username : Option String
  email_verified : Option Bool
deriving DecidableEq, Repr

/-- Decoded JWT header: the declared algorithm (abstract identifier) and the
optional key id. -/
structure TokenHeader where
  alg : Nat
  kid : Option String
deriving DecidableEq, Repr

/-- Abstract model of a presented bearer token.  `headerOk` records whether
the structural format (three dot-separated segments, decodable header)
holds; `sigKey` identifies the key whose private counterpart produced the
signature.  Tokens whose payload does not deserialize into `Claims` are not
modelled; no claim depends on them. -/
structure Token where
  headerOk : Bool
  header : TokenHeader
  claims : Claims
  sigKey : Nat
deriving DecidableEq, Repr

/-- Model of `jsonwebtoken::decode_header`. -/
def decode_header (tok : Token) : Except String TokenHeader :=
  if tok.headerOk then .ok tok.header else .error "InvalidToken"

/-- Abstract verification key derived from a JWK. -/
structure DecodingKey where
  id : Nat
deriving DecidableEq, Repr

/-- Model of `jsonwebtoken::DecodingKey::from_jwk`. -/
def DecodingKey.from_jwk (j : Jwk) : Except String DecodingKey :=
  if j.parses then .ok ⟨j.key_data⟩ else .error "InvalidKeyFormat"

/-- Model of `jsonwebtoken::Validation` (version 9 semantics).
`required_iss` and `required_aud` model membership of `iss` and `aud` in
`required_spec_claims`; `exp` is always required and always present in the
typed `Claims`, so it needs no flag here. -/
structure Validation where
  required_iss : Bool
  required_aud : Bool
  algorithms : List Nat
  leeway : Nat
  validate_exp : Bool
  validate_nbf : Bool
  validate_aud : Bool
  iss : Option (List String)
  aud : Option (List String)
deriving DecidableEq, Repr

/-- Model of `Validation::new`: leeway 60 seconds, `validate_exp` on,
`validate_nbf` off, `validate_aud` on, no expected issuer or audience. -/
def Validation.new (alg : Nat) : Validation :=
  ⟨false, false, [alg], 60, true, false, true, none, none⟩

/-- Model of `Validation::set_issuer`: sets the expected issuers and marks
`iss` required. -/
def Validation.set_issuer (v : Validation) (items : List String) : Validation :=
  ⟨true, v.required_aud, v.algorithms, v.leeway, v.validate_exp, v.validate_nbf,
    v.validate_aud, some items, v.aud⟩

/-- Model of `Validation::set_audience`: sets the expected audiences and
marks `aud` required. -/
def Validation.set_audience (v : Validation) (items : List String) : Validation :=
  ⟨v.required_iss, true, v.algorithms, v.leeway, v.validate_exp, v.validate_nbf,
    v.validate_aud, v.iss, some items⟩

/-- Error kinds of `jsonwebtoken::decode` relevant to this pipeline. -/
inductive JwtError where
  | InvalidTokenFormat
  | InvalidAlgorithm
  | InvalidSignature
  | MissingRequiredClaim (claim : String)
  | ExpiredSignature
  | InvalidIssuer
  | InvalidAudience
deriving DecidableEq, Repr

/-- Display strings of the modelled `jsonwebtoken` errors. -/
def jwtErrorMessage : JwtError → String
  | .InvalidTokenFormat => "InvalidToken"
  | .InvalidAlgorithm => "InvalidAlgorithm"
  | .InvalidSignature => "InvalidSignature"
  | .MissingRequiredClaim c => "Missing required claim: " ++ c
  | .ExpiredSignature => "ExpiredSignature"
  | .InvalidIssuer => "InvalidIssuer"
  | .InvalidAudience => "InvalidAudience"

/-- Issuer equality check of `jsonwebtoken`: fails only when an expected
issuer set is configured and the token's issuer is not in it (a missing
issuer is caught earlier by the required-claim check). -/
def issuerMismatch (v : Validation) (c : Claims) : Bool :=
  match v.iss, c.iss with
  | some expected, some i => !(expected.contains i)
  | _, _ => false

/-- Audience equality check of `jsonwebtoken`, guarded by `validate_aud`. -/
def audienceMismatch (v : Validation) (c : Claims) : Bool :=
  if v.validate_aud then
    match v.aud, c.aud with
    | some expected, some a => !(expected.contains a)
    | _, _ => false
  else false

/-- Model of `jsonwebtoken::decode`: structural check, algorithm check,
signature verification, required claims, `exp` against `now` minus the
leeway, then issuer and audience equality.  `validate_nbf` is off in this
pipeline, and `sub` matching is never configured, so neither is modelled. -/
def jwt_decode (tok : Token) (key : DecodingKey) (v : Validation) (now : Int) :
    Except JwtError Claims :=
  if tok.headerOk = false then .error .InvalidTokenFormat
  else if (v.algorithms.contains tok.header.alg) = false then .error .InvalidAlgorithm
  else if tok.sigKey ≠ key.id then .error .InvalidSignature
  else if v.required_iss ∧ tok.claims.iss = none then .error (.MissingRequiredClaim "iss")
  else if v.required_aud ∧ tok.claims.aud = none then .error (.MissingRequiredClaim "aud")
  else if v.validate_exp ∧ tok.claims.exp < now - (v.leeway : Int) then .error .ExpiredSignature
  else if issuerMismatch v tok.claims then .error .InvalidIssuer
  else if audienceMismatch v tok.claims then .error .InvalidAudience
  else .ok tok.claims

/-- Model of the `AuthError` enum of `auth.rs`. -/
inductive AuthError where
  | MissingToken
  | InvalidToken (msg : String)
  | InsufficientPermissions
  | JwksError (msg : String)
  | InvalidConfiguration (msg : String)
  | IntrospectionError (msg : String)
deriving DecidableEq, Repr

/-- Result of one `validate_token_jwks` call: the returned value, the key
set cache after the call, the number of `get_jwk` (cache) lookups, and the
number of network fetches those lookups performed. -/
structure ValidateJwksOutcome where
  result : Except AuthError Claims
  cache : JwksCache
  lookups : Nat
  fetches : Nat
deriving DecidableEq, Repr

/-- Fixed expected issuer hard-coded in `validate_token_jwks`. -/
def expectedIssuer : String := "http://localhost:8080/realms/mpc"

/-- Fixed expected audience hard-coded in `validate_token_jwks`. -/
def expectedAudience : String := "account"

/-- Validation parameters built by `validate_token_jwks`: defaults of
`Validation::new` for the declared algorithm, with the hard-coded expected
issuer and audience (the source also re-assigns `validate_exp := true` and
`validate_nbf := false`, which are already the defaults). -/
def jwksValidation (alg : Nat) : Validation :=
  Validation.set_audience (Validation.set_issuer (Validation.new alg) [expectedIssuer])
    [expectedAudience]

/-- Continuation of `validate_token_jwks` on the value returned by the
`get_jwk` call: any cache error becomes `JwksError`, then the decoding key
is built and the token decoded and validated. -/
def validateWithJwk (tok : Token) (alg : Nat) (jwkRes : Except JwksError Jwk)
    (wnow : Int) : Except AuthError Claims :=
  match jwkRes with
  | .error e => .error (.JwksError (jwksErrorMessage e))
  | .ok jwk =>
    match DecodingKey.from_jwk jwk with
    | .error e => .error (.InvalidToken ("Failed to parse JWK: " ++ e))
    | .ok key =>
      match jwt_decode tok key (jwksValidation alg) wnow with
      | .error e => .error (.InvalidToken ("Token validation failed: " ++ jwtErrorMessage e))
      | .ok claims => .ok claims

/-- Continuation of `validate_token_jwks` after the `kid` was extracted:
all paths past the `get_jwk` call report one cache lookup and propagate the
cache state and fetch count of that call. -/
def validateWithJwkOutcome (tok : Token) (alg : Nat) (o : GetJwkOutcome) (wnow : Int) :
    ValidateJwksOutcome :=
  ⟨validateWithJwk tok alg o.result wnow, o.cache, 1, o.fetches⟩

/-- Model of `validate_token_jwks` from `auth.rs`: decode the header,
require a `kid`, resolve the key through the cache (any cache error becomes
`JwksError`), build the decoding key, then decode and validate with the
hard-coded expected issuer and audience. -/
def validate_token_jwks (tok : Token) (c : JwksCache) (inow : Nat) (wnow : Int)
    (url : String) (f : FetchResult) : ValidateJwksOutcome :=
  match decode_header tok with
  | .error e => ⟨.error (.InvalidToken ("Failed to decode header: " ++ e)), c, 0, 0⟩
  | .ok header =>
    match header.kid with
    | none => ⟨.error (.InvalidToken "Token missing kid (key ID) in header"), c, 0, 0⟩
    | some kid =>
      validateWithJwkOutcome tok header.alg (get_jwk c inow kid url f) wnow

/-- Hexadecimal digit value of a character, case-insensitive. -/
def hexDigitVal (c : Char) : Option Nat :=
  if 48 ≤ c.toNat ∧ c.toNat ≤ 57 then some (c.toNat - 48)
  else if 97 ≤ c.toNat ∧ c.toNat ≤ 102 then some (c.toNat - 87)
  else if 65 ≤ c.toNat ∧ c.toNat ≤ 70 then some (c.toNat - 55)
  else none

/-- Big-endian value of a hexadecimal digit string. -/
def hexValueAux : List Char → Nat → Option Nat
  | [], acc => some acc
  | ch :: rest, acc =>
    match hexDigitVal ch with
    | none => none
    | some v => hexValueAux rest (acc * 16 + v)

/-- Model of `uuid::Uuid::parse_str` restricted to the simple (32 hex
digits) and hyphenated (8-4-4-4-12) formats; the urn and braced forms also
accepted by the uuid crate are not modelled and no claim depends on them.
The result is the 128-bit value of the UUID. -/
def uuid_parse_str (s : String) : Option Nat :=
  match s.toList.splitOn '-' with
  | [a] => if a.length = 32 then hexValueAux a 0 else none
  | [a, b, g, d, e] =>
    if a.length = 8 ∧ b.length = 4 ∧ g.length = 4 ∧ d.length = 4 ∧ e.length = 12 then
      hexValueAux (a ++ b ++ g ++ d ++ e) 0
    else none
  | _ => none

/-- Model of the `AuthUser` struct: the normalized identity attached to the
request.  `keycloak_user_id` is the 128-bit UUID value. -/
structure AuthUser where
  keycloak_user_id : Nat
  email : Option String
  username : Option String
  email_verified : Bool
deriving DecidableEq, Repr

/-- The claims-to-identity step of `jwt_auth_middleware`: parse `sub` as a
UUID and assemble the `AuthUser`. -/
def authUserFromClaims (claims : Claims) : Except AuthError AuthUser :=
  match uuid_parse_str claims.sub with
  | none => .error (.InvalidToken "Invalid user ID format")
  | some uid =>
    .ok ⟨uid, claims.email, claims.preferred_username, claims.email_verified.getD false⟩

/-- Byte predicate of `http::HeaderValue::to_str`: conversion succeeds
exactly when every byte is visible ASCII or a horizontal tab. -/
def is_visible_ascii (b : Nat) : Bool := (32 ≤ b && b < 127) || b == 9

/-- The bytes of the literal string starting a bearer credential:
`B`, `e`, `a`, `r`, `e`, `r`, space. -/
def bearerBytes : List Nat := [66, 101, 97, 114, 101, 114, 32]

/-- Model of `extract_token_from_headers` over the raw bytes of the
`Authorization` header value.  `to_str` succeeds exactly when every byte is
visible ASCII, and the resulting string has those same bytes, so the
`starts_with` test and the 7-byte skip act directly on the byte list. -/
def extract_token_from_headers (auth : Option (List Nat)) :
    Except AuthError (List Nat) :=
  match auth with
  | none => .error .MissingToken
  | some bs =>
    if bs.all is_visible_ascii then
      if bearerBytes.isPrefixOf bs then .ok (bs.drop 7)
      else .error (.InvalidToken "Missing Bearer prefix")
    else .error (.InvalidToken "Invalid header encoding")

/-- Model of `TokenIntrospectionResponse` from the keycloak client. -/
structure TokenIntrospectionResponse where
  active : Bool
  scope : Option String
  client_id : Option String
  username : Option String
  token_type : Option String
  exp : Option Int
  iat : Option Int
  nbf : Option Int
  sub : Option String
  aud : Option String
  iss : Option String
  jti : Option String
deriving DecidableEq, Repr

/-- Model of `validate_token_introspection` from `auth.rs`.  The optional
keycloak client and the outcome of the introspection HTTP call are passed
explicitly; an absent client is `InvalidConfiguration`, a failed call is
`IntrospectionError`, an inactive token is `InvalidToken`, and a missing
`sub` or `exp` on an active response is `InvalidToken` naming the claim. -/
def validate_token_introspection (kcClient : Option Unit)
    (introspection : Except String TokenIntrospectionResponse) :
    Except AuthError Claims :=
  match kcClient with
  | none =>
    .error (.InvalidConfiguration
      "Introspection validation requires KeycloakClient to be configured")
  | some _ =>
    match introspection with
    | .error e => .error (.IntrospectionError ("Token introspection failed: " ++ e))
    | .ok r =>
      if r.active = false then .error (.InvalidToken "Token is not active")
      else
        match r.sub with
        | none => .error (.InvalidToken "Missing sub claim in token")
        | some sub =>
          match r.exp with
          | none => .error (.InvalidToken "Missing exp claim in token")
          | some exp =>
            .ok ⟨sub, r.iat.getD 0, exp, r.aud, r.iss, none, r.username, none⟩

/-- Model of `JwtValidationMethod` from the core config. -/
inductive JwtValidationMethod where
  | Jwks
  | Introspection
deriving DecidableEq, Repr

/-- Result of one `jwt_auth_middleware` call: the attached identity or the
error, the key set cache after the call, the number of cache lookups, and
the number of network fetches. -/
structure MiddlewareOutcome where
  result : Except AuthError AuthUser
  cache : JwksCache
  lookups : Nat
  fetches : Nat
deriving DecidableEq, Repr

/-- Tail of `jwt_auth_middleware` after the JWKS validator ran: on success,
parse the validated `sub` as a UUID and attach the `AuthUser`; any error
short-circuits. -/
def middlewareFinish (o : ValidateJwksOutcome) : MiddlewareOutcome :=
  match o.result with
  | .error e => ⟨.error e, o.cache, o.lookups, o.fetches⟩
  | .ok claims => ⟨authUserFromClaims claims, o.cache, o.lookups, o.fetches⟩

/-- Model of `jwt_auth_middleware`: extract the bearer token from the
`Authorization` header bytes, dispatch to the configured validator, parse
the validated `sub` as a UUID and attach the `AuthUser`.  `parseToken`
abstracts the JWT wire format, mapping the extracted token bytes to the
structured token. -/
def jwt_auth_middleware (method : JwtValidationMethod) (auth : Option (List Nat))
    (parseToken : List Nat → Token) (c : JwksCache) (inow : Nat) (wnow : Int)
    (url : String) (f : FetchResult) (kcClient : Option Unit)
    (introspection : Except String TokenIntrospectionResponse) : MiddlewareOutcome :=
  match extract_token_from_headers auth with
  | .error e => ⟨.error e, c, 0, 0⟩
  | .ok tokenBytes =>
    match method with
    | .Jwks =>
      middlewareFinish (validate_token_jwks (parseToken tokenBytes) c inow wnow url f)
    | .Introspection =>
      match validate_token_introspection kcClient introspection with
      | .error e => ⟨.error e, c, 0, 0⟩
      | .ok claims => ⟨authUserFromClaims claims, c, 0, 0⟩

/-- Model of `impl IntoResponse for AuthError`: the HTTP status code of the
produced response. -/
def authErrorStatus : AuthError → Nat
  | .MissingToken => 401
  | .InvalidToken _ => 401
  | .InsufficientPermissions => 403
  | .JwksError _ => 500
  | .InvalidConfiguration _ => 500
  | .IntrospectionError _ => 500

/-! ### Concrete fixtures used by witnesses and counterexamples -/

/-- Discriminator for the `InvalidToken` error kind of a validation result. -/
def isInvalidTokenResult : Except AuthError Claims → Bool
  | .error (.InvalidToken _) => true
  | _ => false

/-- Sample JWK with kid `kid-1`. -/
def wJwk : Jwk := ⟨some "kid-1", 7, true⟩

/-- Sample key set holding only `wJwk`. -/
def wSet : JwkSet := ⟨[wJwk]⟩

/-- Sample cache holding `wSet`, fetched at instant 0. -/
def wCache : JwksCache := ⟨some wSet, some 0⟩

/-- Sample claims: the sub is the UUID of the spec scenario, the exp is one
hour after the wall clock 1000 used in the witnesses. -/
def wClaims : Claims :=
  ⟨"11111111-1111-1111-1111-111111111111", 0, 4600, some expectedAudience,
    some expectedIssuer, some "user@example.com", some "user", some true⟩

/-- Sample well-formed token signed with the key of `wJwk`. -/
def wToken : Token := ⟨true, ⟨1, some "kid-1"⟩, wClaims, 7⟩

/-- The 128-bit value of the UUID 11111111-1111-1111-1111-111111111111. -/
def wUuid : Nat := 22685491128062564230891640495451214097

/-- Token with `exp = 0` (long past) whose kid is `kid-1`. -/
def c5TokA : Token :=
  ⟨true, ⟨1, some "kid-1"⟩,
    ⟨"11111111-1111-1111-1111-111111111111", 0, 0, some expectedAudience,
      some expectedIssuer, none, none, none⟩, 7⟩

/-- Token with `exp = 999`, one second before the wall clock 1000 used in
the counterexample, otherwise fully valid. -/
def c5TokB : Token :=
  ⟨true, ⟨1, some "kid-1"⟩,
    ⟨"11111111-1111-1111-1111-111111111111", 0, 999, some expectedAudience,
      some expectedIssuer, none, none, none⟩, 7⟩

/-- Introspection response with `active = false` and nothing else. -/
def wIntroInactive : TokenIntrospectionResponse :=
  ⟨false, none, none, none, none, none, none, none, none, none, none, none⟩

/-- Active introspection response lacking `sub`. -/
def wIntroNoSub : TokenIntrospectionResponse :=
  ⟨true, none, none, none, none, some 4600, none, none, none, none, none, none⟩

/-- Active introspection response with a `sub` but lacking `exp`. -/
def wIntroNoExp : TokenIntrospectionResponse :=
  ⟨true, none, none, none, none, none, none, none,
    some "11111111-1111-1111-1111-111111111111", none, none, none⟩

/-! ### Lemmas about the key set cache -/

/-- A fresh cache that contains the `kid` answers without fetching. -/
theorem get_jwk_cache_hit (c : JwksCache) (S : JwkSet) (t now : Nat) (kid url : String)
    (f : FetchResult) (jwk : Jwk) (hcj : c.jwks = some S) (hcf : c.last_fetch = some t)
    (hfresh : now - t < jwksCacheTtl) (hfind : S.find kid = some jwk) :
    get_jwk c now kid url f = ⟨.ok jwk, c, 0⟩ := by
  unfold get_jwk cacheLookup
  rw [hcj, hcf]
  simp [hfresh, hfind]

/-- On a cache miss with a successful fetch containing the `kid`, the key is
returned and the fetched set is stored with the current instant. -/
theorem get_jwk_miss_fetch_ok (c : JwksCache) (now : Nat) (kid url : String) (S : JwkSet)
    (jwk : Jwk) (hmiss : cacheLookup c now kid = none) (hfind : S.find kid = some jwk) :
    get_jwk c now kid url (.success S) = ⟨.ok jwk, ⟨some S, some now⟩, 1⟩ := by
  unfold get_jwk
  rw [hmiss]
  simp [fetch_jwks, hfind]

/-- On a cache miss with a successful fetch not containing the `kid`, the
call fails with the key-not-found kind and the cache is left unchanged. -/
theorem get_jwk_miss_fetch_absent (c : JwksCache) (now : Nat) (kid url : String)
    (S : JwkSet) (hmiss : cacheLookup c now kid = none) (hfind : S.find kid = none) :
    get_jwk c now kid url (.success S) = ⟨.error (.KeyNotFound kid), c, 1⟩ := by
  unfold get_jwk
  rw [hmiss]
  simp [fetch_jwks, hfind]

/-- On a cache miss, exactly one fetch is performed, whatever its outcome. -/
theorem get_jwk_miss_fetches_one (c : JwksCache) (now : Nat) (kid url : String)
    (f : FetchResult) (hmiss : cacheLookup c now kid = none) :
    (get_jwk c now kid url f).fetches = 1 := by
  unfold get_jwk
  rw [hmiss]
  cases f with
  | success S => cases h : S.find kid <;> simp [fetch_jwks, h]
  | sendError e => simp [fetch_jwks]
  | badStatus st => simp [fetch_jwks]
  | bodyError e => simp [fetch_jwks]

/-- Consecutive lookups against a fresh cache containing the `kid` all hit
the cache: no fetch, no cache change, each call returns the key. -/
theorem runGetJwk_cached (S : JwkSet) (kid url : String) (jwk : Jwk) (t0 : Nat)
    (hfind : S.find kid = some jwk) :
    ∀ rest : List (Nat × FetchResult), (∀ p ∈ rest, p.1 - t0 < jwksCacheTtl) →
      runGetJwk ⟨some S, some t0⟩ rest kid url
        = (⟨some S, some t0⟩, List.replicate rest.length (Except.ok jwk), 0) := by
  intro rest
  induction rest with
  | nil => intro _; simp [runGetJwk]
  | cons p rest ih =>
    intro h
    obtain ⟨t, f⟩ := p
    have hhit := get_jwk_cache_hit ⟨some S, some t0⟩ S t0 t kid url f jwk rfl rfl
      (h (t, f) (List.mem_cons_self _ _)) hfind
    have ih2 := ih (fun q hq => h q (List.mem_cons_of_mem _ hq))
    simp [runGetJwk, hhit, ih2, List.replicate_succ]

/-- C2: the claim asserts that every successful fetch triggered by a cache
miss replaces the cached key set.  The code looks the `kid` up in the
fetched set first and returns the key-not-found error before touching the
cache, so after a successful fetch of a set lacking the `kid` the cache is
still empty, contradicting the claimed replacement; starting from an empty
cache at instant 0 with a fetched set containing only `kid-2`, the lookup
for `kid-1` fails with the key-not-found kind after one fetch and the cache
still holds no key set. -/
theorem c2_counterexample :
    (get_jwk ⟨none, none⟩ 0 "kid-1" "u" (.success ⟨[⟨some "kid-2", 0, true⟩]⟩)).result
      = .error (.KeyNotFound "kid-1")
  ∧ (get_jwk ⟨none, none⟩ 0 "kid-1" "u" (.success ⟨[⟨some "kid-2", 0, true⟩]⟩)).fetches = 1
  ∧ (get_jwk ⟨none, none⟩ 0 "kid-1" "u" (.success ⟨[⟨some "kid-2", 0, true⟩]⟩)).cache
      = ⟨none, none⟩ := by
  refine ⟨rfl, rfl, rfl⟩

/-- C2 (amended): on a cache miss followed by a successful fetch, the lookup
is retried against the fetched data; if the `kid` is found, the fetched set
replaces the cached key set and the key is returned; if the `kid` is still
absent, the call fails with the key-not-found error kind after exactly one
fetch, and the cached key set is left unchanged. -/
theorem c2_miss_fetch_behaviour (c : JwksCache) (now : Nat) (kid url : String)
    (S : JwkSet) (hmiss : cacheLookup c now kid = none) :
    (∀ jwk, S.find kid = some jwk →
      get_jwk c now kid url (.success S) = ⟨.ok jwk, ⟨some S, some now⟩, 1⟩)
  ∧ (S.find kid = none →
      get_jwk c now kid url (.success S) = ⟨.error (.KeyNotFound kid), c, 1⟩) :=
  ⟨fun jwk hfind => get_jwk_miss_fetch_ok c now kid url S jwk hmiss hfind,
   fun hfind => get_jwk_miss_fetch_absent c now kid url S hmiss hfind⟩

/-- Witness for the amended C2 at concrete inputs: an empty cache, a fetch
that finds the key, and a fetch of an empty set. -/
theorem c2_miss_fetch_behaviour_witness :
    get_jwk ⟨none, none⟩ 5 "kid-1" "u" (.success ⟨[⟨some "kid-1", 7, true⟩]⟩)
      = ⟨.ok ⟨some "kid-1", 7, true⟩, ⟨some ⟨[⟨some "kid-1", 7, true⟩]⟩, some 5⟩, 1⟩
  ∧ get_jwk ⟨none, none⟩ 5 "kid-1" "u" (.success ⟨[]⟩)
      = ⟨.error (.KeyNotFound "kid-1"), ⟨none, none⟩, 1⟩ :=
  ⟨(c2_miss_fetch_behaviour ⟨none, none⟩ 5 "kid-1" "u" ⟨[⟨some "kid-1", 7, true⟩]⟩ rfl).1
      ⟨some "kid-1", 7, true⟩ rfl,
   (c2_miss_fetch_behaviour ⟨none, none⟩ 5 "kid-1" "u" ⟨[]⟩ rfl).2 rfl⟩

/-- C3: starting from an empty cache, a first `get_jwk` call at instant `t0`
whose fetch succeeds with a set containing the `kid`, followed by any number
of calls at instants within the 300-second TTL window, performs exactly one
network fetch in total and every call returns the key; a further call once
the TTL has elapsed performs exactly one more fetch. -/
theorem c3_ttl_single_fetch (S : JwkSet) (kid url : String) (jwk : Jwk) (t0 tN : Nat)
    (rest : List (Nat × FetchResult)) (fN : FetchResult)
    (hfind : S.find kid = some jwk)
    (hrest : ∀ p ∈ rest, p.1 - t0 < jwksCacheTtl)
    (hT : jwksCacheTtl ≤ tN - t0) :
    runGetJwk ⟨none, none⟩ ((t0, .success S) :: rest) kid url
      = (⟨some S, some t0⟩, List.replicate (rest.length + 1) (Except.ok jwk), 1)
  ∧ (get_jwk ⟨some S, some t0⟩ tN kid url fN).fetches = 1 := by
  constructor
  · have hfirst := get_jwk_miss_fetch_ok ⟨none, none⟩ t0 kid url S jwk rfl hfind
    have hrun := runGetJwk_cached S kid url jwk t0 hfind rest hrest
    simp [runGetJwk, hfirst, hrun, List.replicate_succ]
  · refine get_jwk_miss_fetches_one _ _ _ _ _ ?_
    unfold cacheLookup
    simp [Nat.not_lt.mpr hT]

/-- Witness for C3 at concrete inputs: first call at instant 0, two further
calls inside the window (whose would-be fetches fail, showing they are not
used), one call at instant 300. -/
theorem c3_ttl_single_fetch_witness :
    runGetJwk ⟨none, none⟩
        [(0, .success ⟨[⟨some "kid-1", 7, true⟩]⟩), (10, .bodyError "x"), (299, .sendError "y")]
        "kid-1" "u"
      = (⟨some ⟨[⟨some "kid-1", 7, true⟩]⟩, some 0⟩,
          List.replicate 3 (Except.ok ⟨some "kid-1", 7, true⟩), 1)
  ∧ (get_jwk ⟨some ⟨[⟨some "kid-1", 7, true⟩]⟩, some 0⟩ 300 "kid-1" "u"
        (.success ⟨[⟨some "kid-1", 7, true⟩]⟩)).fetches = 1 :=
  c3_ttl_single_fetch ⟨[⟨some "kid-1", 7, true⟩]⟩ "kid-1" "u" ⟨some "kid-1", 7, true⟩ 0 300
    [(10, .bodyError "x"), (299, .sendError "y")] (.success ⟨[⟨some "kid-1", 7, true⟩]⟩)
    rfl (by decide) (by decide)

/-- C7: when a cache miss triggers a fetch that fails, `get_jwk` surfaces
the distinct error kind of the failure (send error, non-success status,
malformed body) and leaves the cached key set and its fetch timestamp
unchanged; meanwhile a lookup for a key id present in the still-fresh
cached set is served from the cache with no fetch. -/
theorem c7_fetch_failure_isolated (c : JwksCache) (now now2 : Nat)
    (kid kid2 url : String) (e : String) (st : Nat) (S : JwkSet) (t : Nat) (jwk : Jwk)
    (f2 : FetchResult) (hmiss : cacheLookup c now kid = none)
    (hcj : c.jwks = some S) (hcf : c.last_fetch = some t)
    (hfresh : now2 - t < jwksCacheTtl) (hfind : S.find kid2 = some jwk) :
    get_jwk c now kid url (.sendError e) = ⟨.error (.FetchJwks e), c, 1⟩
  ∧ get_jwk c now kid url (.badStatus st) = ⟨.error (.FetchFailed st url), c, 1⟩
  ∧ get_jwk c now kid url (.bodyError e) = ⟨.error (.ParseJwks e), c, 1⟩
  ∧ get_jwk c now2 kid2 url f2 = ⟨.ok jwk, c, 0⟩ := by
  refine ⟨?_, ?_, ?_, get_jwk_cache_hit c S t now2 kid2 url f2 jwk hcj hcf hfresh hfind⟩
  all_goals unfold get_jwk
  all_goals rw [hmiss]
  all_goals simp [fetch_jwks]

/-- Witness for C7 at concrete inputs: a fresh cache holding `kid-1`, a
failing fetch for the absent `kid-miss`, and a cache hit for `kid-1`. -/
theorem c7_fetch_failure_isolated_witness :
    get_jwk ⟨some ⟨[⟨some "kid-1", 7, true⟩]⟩, some 0⟩ 10 "kid-miss" "u" (.sendError "err")
      = ⟨.error (.FetchJwks "err"), ⟨some ⟨[⟨some "kid-1", 7, true⟩]⟩, some 0⟩, 1⟩
  ∧ get_jwk ⟨some ⟨[⟨some "kid-1", 7, true⟩]⟩, some 0⟩ 10 "kid-miss" "u" (.badStatus 502)
      = ⟨.error (.FetchFailed 502 "u"), ⟨some ⟨[⟨some "kid-1", 7, true⟩]⟩, some 0⟩, 1⟩
  ∧ get_jwk ⟨some ⟨[⟨some "kid-1", 7, true⟩]⟩, some 0⟩ 10 "kid-miss" "u" (.bodyError "err")
      = ⟨.error (.ParseJwks "err"), ⟨some ⟨[⟨some "kid-1", 7, true⟩]⟩, some 0⟩, 1⟩
  ∧ get_jwk ⟨some ⟨[⟨some "kid-1", 7, true⟩]⟩, some 0⟩ 10 "kid-1" "u" (.sendError "err")
      = ⟨.ok ⟨some "kid-1", 7, true⟩, ⟨some ⟨[⟨some "kid-1", 7, true⟩]⟩, some 0⟩, 0⟩ :=
  c7_fetch_failure_isolated ⟨some ⟨[⟨some "kid-1", 7, true⟩]⟩, some 0⟩ 10 10 "kid-miss"
    "kid-1" "u" "err" 502 ⟨[⟨some "kid-1", 7, true⟩]⟩ 0 ⟨some "kid-1", 7, true⟩
    (.sendError "err") rfl rfl rfl (by decide) rfl

/-! ### Lemmas about local signature validation -/

/-- Decoding succeeds when the token is well-formed, the signature matches
the key, the issuer and audience equal the expected values, and the exp is
no earlier than the 60-second leeway before the wall clock. -/
theorem jwt_decode_ok (tok : Token) (key : DecodingKey) (wnow : Int)
    (hheader : tok.headerOk = true) (hsig : tok.sigKey = key.id)
    (hiss : tok.claims.iss = some expectedIssuer)
    (haud : tok.claims.aud = some expectedAudience)
    (hexp : wnow - 60 ≤ tok.claims.exp) :
    jwt_decode tok key (jwksValidation tok.header.alg) wnow = .ok tok.claims := by
  unfold jwt_decode jwksValidation Validation.new Validation.set_issuer Validation.set_audience
    issuerMismatch audienceMismatch
  simp only [hheader, hsig, hiss, haud, List.contains]
  simp
  omega

/-- With the validation parameters of this pipeline (exp validation on,
leeway 60), a token whose exp lies more than the leeway before the wall
clock never decodes successfully. -/
theorem jwt_decode_expired_not_ok (tok : Token) (key : DecodingKey) (alg : Nat)
    (wnow : Int) (claims : Claims) (hexp : tok.claims.exp < wnow - 60) :
    jwt_decode tok key (jwksValidation alg) wnow ≠ .ok claims := by
  have hexp2 : tok.claims.exp < wnow - ((60 : Nat) : Int) := by push_cast; omega
  unfold jwt_decode jwksValidation Validation.new Validation.set_issuer Validation.set_audience
  intro h
  split at h
  · exact absurd h (by simp)
  · split at h
    · exact absurd h (by simp)
    · split at h
      · exact absurd h (by simp)
      · split at h
        · exact absurd h (by simp)
        · split at h
          · exact absurd h (by simp)
          · split at h
            · exact absurd h (by simp)
            · rename_i hnot
              have h2 : wnow ≤ tok.claims.exp + 60 := by simpa using hnot
              omega

/-- Key resolution through a fresh cache followed by successful signature
and claims validation: the exact success path of `validate_token_jwks`. -/
theorem validate_token_jwks_cached_ok (tok : Token) (c : JwksCache) (S : JwkSet)
    (jwk : Jwk) (kid : String) (t inow : Nat) (wnow : Int) (url : String) (f : FetchResult)
    (hheader : tok.headerOk = true) (hkid : tok.header.kid = some kid)
    (hcj : c.jwks = some S) (hcf : c.last_fetch = some t)
    (hfresh : inow - t < jwksCacheTtl) (hfind : S.find kid = some jwk)
    (hparses : jwk.parses = true) (hsig : tok.sigKey = jwk.key_data)
    (hiss : tok.claims.iss = some expectedIssuer)
    (haud : tok.claims.aud = some expectedAudience)
    (hexp : wnow - 60 ≤ tok.claims.exp) :
    validate_token_jwks tok c inow wnow url f = ⟨.ok tok.claims, c, 1, 0⟩ := by
  have hget := get_jwk_cache_hit c S t inow kid url f jwk hcj hcf hfresh hfind
  have hdec := jwt_decode_ok tok ⟨jwk.key_data⟩ wnow hheader hsig hiss haud hexp
  simp [validate_token_jwks, decode_header, hheader, hkid, hget, validateWithJwkOutcome,
    validateWithJwk, DecodingKey.from_jwk, hparses, hdec]

/-- C1: for a token whose header carries a kid present in the fresh cached
key set, signed with the matching private key, with a parseable JWK, sub a
UUID, exp one hour ahead of the wall clock, and issuer and audience equal to
the fixed expected values checked for every token, `jwt_auth_middleware` in
JWKS mode succeeds and attaches an `AuthUser` whose `keycloak_user_id` is
that UUID. -/
theorem c1_jwks_success (tok : Token) (c : JwksCache) (S : JwkSet) (jwk : Jwk)
    (kid : String) (t inow : Nat) (wnow : Int) (url : String) (f : FetchResult)
    (auth tokenBytes : List Nat) (parseToken : List Nat → Token)
    (kcClient : Option Unit) (intro : Except String TokenIntrospectionResponse) (uid : Nat)
    (hextract : extract_token_from_headers (some auth) = .ok tokenBytes)
    (hparse : parseToken tokenBytes = tok)
    (hheader : tok.headerOk = true) (hkid : tok.header.kid = some kid)
    (hcj : c.jwks = some S) (hcf : c.last_fetch = some t)
    (hfresh : inow - t < jwksCacheTtl) (hfind : S.find kid = some jwk)
    (hparses : jwk.parses = true) (hsig : tok.sigKey = jwk.key_data)
    (hexp : tok.claims.exp = wnow + 3600)
    (hiss : tok.claims.iss = some expectedIssuer)
    (haud : tok.claims.aud = some expectedAudience)
    (hsub : uuid_parse_str tok.claims.sub = some uid) :
    ∃ u : AuthUser,
      (jwt_auth_middleware .Jwks (some auth) parseToken c inow wnow url f kcClient
          intro).result = .ok u
      ∧ u.keycloak_user_id = uid := by
  have hval := validate_token_jwks_cached_ok tok c S jwk kid t inow wnow url f hheader hkid
    hcj hcf hfresh hfind hparses hsig hiss haud (by omega)
  refine ⟨⟨uid, tok.claims.email, tok.claims.preferred_username,
    tok.claims.email_verified.getD false⟩, ?_, rfl⟩
  simp [jwt_auth_middleware, hextract, hparse, hval, middlewareFinish, authUserFromClaims, hsub]

/-- Witness for C1 at concrete inputs: authorization bytes spelling
`Bearer t`, the sample token of `kid-1`, the fresh sample cache, wall
clock 1000 and exp 4600. -/
theorem c1_jwks_success_witness :
    ∃ u : AuthUser,
      (jwt_auth_middleware .Jwks (some [66, 101, 97, 114, 101, 114, 32, 116])
          (fun _ => wToken) wCache 10 1000 "u" (.bodyError "boom") none
          (.error "unused")).result = .ok u
      ∧ u.keycloak_user_id = wUuid :=
  c1_jwks_success wToken wCache wSet wJwk "kid-1" 0 10 1000 "u" (.bodyError "boom")
    [66, 101, 97, 114, 101, 114, 32, 116] [116] (fun _ => wToken) none (.error "unused")
    wUuid (by decide) rfl rfl rfl rfl rfl (by decide) rfl rfl rfl rfl rfl rfl (by decide)

/-- C4: for every token whose header cannot be decoded, and for every token
whose decoded header lacks a kid, `validate_token_jwks` fails with the
`InvalidToken` kind, performing zero cache lookups and zero fetches. -/
theorem c4_invalid_header_no_network (tok : Token) (c : JwksCache) (inow : Nat)
    (wnow : Int) (url : String) (f : FetchResult)
    (h : tok.headerOk = false ∨ tok.header.kid = none) :
    ∃ m, validate_token_jwks tok c inow wnow url f = ⟨.error (.InvalidToken m), c, 0, 0⟩ := by
  rcases h with h | h
  · exact ⟨"Failed to decode header: InvalidToken",
      by simp [validate_token_jwks, decode_header, h]⟩
  · cases hh : tok.headerOk
    · exact ⟨"Failed to decode header: InvalidToken",
        by simp [validate_token_jwks, decode_header, hh]⟩
    · exact ⟨"Token missing kid (key ID) in header",
        by simp [validate_token_jwks, decode_header, hh, h]⟩

/-- Witness for C4 at concrete inputs: a structurally malformed token and a
well-formed token without a kid. -/
theorem c4_invalid_header_no_network_witness :
    (∃ m, validate_token_jwks ⟨false, ⟨1, some "kid-1"⟩, wClaims, 7⟩ wCache 10 1000 "u"
        (.bodyError "boom") = ⟨.error (.InvalidToken m), wCache, 0, 0⟩)
  ∧ (∃ m, validate_token_jwks ⟨true, ⟨1, none⟩, wClaims, 7⟩ wCache 10 1000 "u"
        (.bodyError "boom") = ⟨.error (.InvalidToken m), wCache, 0, 0⟩) :=
  ⟨c4_invalid_header_no_network ⟨false, ⟨1, some "kid-1"⟩, wClaims, 7⟩ wCache 10 1000 "u"
      (.bodyError "boom") (Or.inl rfl),
   c4_invalid_header_no_network ⟨true, ⟨1, none⟩, wClaims, 7⟩ wCache 10 1000 "u"
      (.bodyError "boom") (Or.inr rfl)⟩

/-- C5: the claim asserts that every token with a past exp fails with the
`InvalidToken` kind regardless of signature validity and key availability.
Two concrete refutations: `c5TokA` has exp 0 (past the wall clock 1000) but
its kid is absent from the fetched key set, so the failure kind is
`JwksError`, not `InvalidToken`; and `c5TokB` has exp 999, one second in
the past at wall clock 1000, yet validates successfully because the
`jsonwebtoken` default 60-second leeway accepts it. -/
theorem c5_counterexample :
    c5TokA.claims.exp < 1000
  ∧ (validate_token_jwks c5TokA ⟨none, none⟩ 0 1000 "u" (.success ⟨[]⟩)).result
      = .error (.JwksError "Key with kid kid-1 not found in JWKS")
  ∧ isInvalidTokenResult
      (validate_token_jwks c5TokA ⟨none, none⟩ 0 1000 "u" (.success ⟨[]⟩)).result = false
  ∧ c5TokB.claims.exp < 1000
  ∧ (validate_token_jwks c5TokB wCache 10 1000 "u" (.bodyError "x")).result
      = .ok c5TokB.claims := by
  refine ⟨by decide, rfl, rfl, by decide, rfl⟩

/-- C5 (amended): for every token whose header decodes and carries a kid for
which the key-set lookup resolves a key, and whose exp lies more than the
60-second default leeway before the wall clock, `validate_token_jwks` fails
with the `InvalidToken` kind regardless of signature validity. -/
theorem c5_expired_invalid_token (tok : Token) (c : JwksCache) (inow : Nat) (wnow : Int)
    (url : String) (f : FetchResult) (kid : String) (jwk : Jwk)
    (hheader : tok.headerOk = true) (hkid : tok.header.kid = some kid)
    (hget : (get_jwk c inow kid url f).result = .ok jwk)
    (hexp : tok.claims.exp < wnow - 60) :
    ∃ m, (validate_token_jwks tok c inow wnow url f).result = .error (.InvalidToken m) := by
  have hstep : (validate_token_jwks tok c inow wnow url f).result
      = validateWithJwk tok tok.header.alg (get_jwk c inow kid url f).result wnow := by
    simp [validate_token_jwks, decode_header, hheader, hkid, validateWithJwkOutcome]
  rw [hstep, hget]
  cases hfj : DecodingKey.from_jwk jwk with
  | error e => exact ⟨"Failed to parse JWK: " ++ e, by simp [validateWithJwk, hfj]⟩
  | ok key =>
    cases hdec : jwt_decode tok key (jwksValidation tok.header.alg) wnow with
    | error e => exact ⟨"Token validation failed: " ++ jwtErrorMessage e,
        by simp [validateWithJwk, hfj, hdec]⟩
    | ok claims => exact absurd hdec (jwt_decode_expired_not_ok tok key _ wnow claims hexp)

/-- Witness for the amended C5: a token with exp 0, wall clock 1000, key
resolved from the fresh sample cache, and an invalid signature. -/
theorem c5_expired_invalid_token_witness :
    ∃ m, (validate_token_jwks ⟨true, ⟨1, some "kid-1"⟩,
        ⟨"11111111-1111-1111-1111-111111111111", 0, 0, some expectedAudience,
          some expectedIssuer, none, none, none⟩, 99⟩ wCache 10 1000 "u"
        (.bodyError "x")).result = .error (.InvalidToken m) :=
  c5_expired_invalid_token ⟨true, ⟨1, some "kid-1"⟩,
      ⟨"11111111-1111-1111-1111-111111111111", 0, 0, some expectedAudience,
        some expectedIssuer, none, none, none⟩, 99⟩ wCache 10 1000 "u" (.bodyError "x")
    "kid-1" wJwk rfl rfl (by decide) (by decide)

/-! ### Orchestrator and introspection claims -/

/-- C6: an inactive introspection response fails with the `InvalidToken`
kind, an unauthorized-class error rather than a transport error; an active
response lacking `sub`, or lacking `exp`, fails with `InvalidToken` naming
the missing claim. -/
theorem c6_introspection_claims (r : TokenIntrospectionResponse) (s : String) :
    (r.active = false →
      validate_token_introspection (some ()) (.ok r)
        = .error (.InvalidToken "Token is not active"))
  ∧ (r.active = true → r.sub = none →
      validate_token_introspection (some ()) (.ok r)
        = .error (.InvalidToken "Missing sub claim in token"))
  ∧ (r.active = true → r.sub = some s → r.exp = none →
      validate_token_introspection (some ()) (.ok r)
        = .error (.InvalidToken "Missing exp claim in token"))
  ∧ authErrorStatus (.InvalidToken "Token is not active") = 401 := by
  refine ⟨fun h => ?_, fun h1 h2 => ?_, fun h1 h2 h3 => ?_, rfl⟩
  · simp [validate_token_introspection, h]
  · simp [validate_token_introspection, h1, h2]
  · simp [validate_token_introspection, h1, h2, h3]

/-- Witness for C6 at three concrete introspection responses. -/
theorem c6_introspection_claims_witness :
    validate_token_introspection (some ()) (.ok wIntroInactive)
      = .error (.InvalidToken "Token is not active")
  ∧ validate_token_introspection (some ()) (.ok wIntroNoSub)
      = .error (.InvalidToken "Missing sub claim in token")
  ∧ validate_token_introspection (some ()) (.ok wIntroNoExp)
      = .error (.InvalidToken "Missing exp claim in token") :=
  ⟨(c6_introspection_claims wIntroInactive "s").1 rfl,
   (c6_introspection_claims wIntroNoSub "s").2.1 rfl rfl,
   (c6_introspection_claims wIntroNoExp
      "11111111-1111-1111-1111-111111111111").2.2.1 rfl rfl rfl⟩

/-- C8: a request without an Authorization header fails with `MissingToken`
with no validator dispatch and zero cache lookups and fetches; a request
whose header bytes do not begin with the octets of the literal `Bearer `
fails with the `InvalidToken` kind, likewise with zero interactions. -/
theorem c8_extraction (method : JwtValidationMethod) (parseToken : List Nat → Token)
    (c : JwksCache) (inow : Nat) (wnow : Int) (url : String) (f : FetchResult)
    (kcClient : Option Unit) (intro : Except String TokenIntrospectionResponse)
    (bs : List Nat) (hb : bearerBytes.isPrefixOf bs = false) :
    jwt_auth_middleware method none parseToken c inow wnow url f kcClient intro
      = ⟨.error .MissingToken, c, 0, 0⟩
  ∧ ∃ m, jwt_auth_middleware method (some bs) parseToken c inow wnow url f kcClient intro
      = ⟨.error (.InvalidToken m), c, 0, 0⟩ := by
  constructor
  · simp [jwt_auth_middleware, extract_token_from_headers]
  · cases hv : bs.all is_visible_ascii
    · exact ⟨"Invalid header encoding",
        by simp [jwt_auth_middleware, extract_token_from_headers, hv]⟩
    · exact ⟨"Missing Bearer prefix",
        by simp [jwt_auth_middleware, extract_token_from_headers, hv, hb]⟩

/-- Witness for C8 at concrete inputs: no header, and the header `X`. -/
theorem c8_extraction_witness :
    jwt_auth_middleware .Jwks none (fun _ => wToken) wCache 10 1000 "u" (.bodyError "boom")
        none (.error "unused")
      = ⟨.error .MissingToken, wCache, 0, 0⟩
  ∧ ∃ m, jwt_auth_middleware .Jwks (some [88]) (fun _ => wToken) wCache 10 1000 "u"
        (.bodyError "boom") none (.error "unused")
      = ⟨.error (.InvalidToken m), wCache, 0, 0⟩ :=
  c8_extraction .Jwks (fun _ => wToken) wCache 10 1000 "u" (.bodyError "boom") none
    (.error "unused") [88] (by decide)

/-- C9: `MissingToken` and `InvalidToken` map to the unauthorized status
401; `JwksError`, `InvalidConfiguration` and `IntrospectionError` map to
the internal-error status 500. -/
theorem c9_status_mapping (m : String) :
    authErrorStatus .MissingToken = 401
  ∧ authErrorStatus (.InvalidToken m) = 401
  ∧ authErrorStatus (.JwksError m) = 500
  ∧ authErrorStatus (.InvalidConfiguration m) = 500
  ∧ authErrorStatus (.IntrospectionError m) = 500 :=
  ⟨rfl, rfl, rfl, rfl, rfl⟩

/-- C10: an Authorization header whose byte string contains a byte that is
not visible ASCII (so the header value cannot be converted to a string)
fails with `InvalidToken` carrying the invalid-header-encoding message, and
in particular not with `MissingToken`. -/
theorem c10_invalid_encoding (method : JwtValidationMethod) (parseToken : List Nat → Token)
    (c : JwksCache) (inow : Nat) (wnow : Int) (url : String) (f : FetchResult)
    (kcClient : Option Unit) (intro : Except String TokenIntrospectionResponse)
    (bs : List Nat) (b : Nat) (hmem : b ∈ bs) (hbad : is_visible_ascii b = false) :
    (jwt_auth_middleware method (some bs) parseToken c inow wnow url f kcClient
        intro).result = .error (.InvalidToken "Invalid header encoding")
  ∧ (jwt_auth_middleware method (some bs) parseToken c inow wnow url f kcClient
        intro).result ≠ .error .MissingToken := by
  have hv : bs.all is_visible_ascii = false := by
    cases hall : bs.all is_visible_ascii
    · rfl
    · have hb := List.all_eq_true.mp hall b hmem
      rw [hbad] at hb
      cases hb
  have h1 : (jwt_auth_middleware method (some bs) parseToken c inow wnow url f kcClient
      intro).result = .error (.InvalidToken "Invalid header encoding") := by
    simp [jwt_auth_middleware, extract_token_from_headers, hv]
  refine ⟨h1, ?_⟩
  rw [h1]
  simp

/-- Witness for C10 at a concrete header value containing the byte 10. -/
theorem c10_invalid_encoding_witness :
    (jwt_auth_middleware .Jwks (some [66, 10]) (fun _ => wToken) wCache 10 1000 "u"
        (.bodyError "boom") none (.error "unused")).result
      = .error (.InvalidToken "Invalid header encoding")
  ∧ (jwt_auth_middleware .Jwks (some [66, 10]) (fun _ => wToken) wCache 10 1000 "u"
        (.bodyError "boom") none (.error "unused")).result ≠ .error .MissingToken :=
  c10_invalid_encoding .Jwks (fun _ => wToken) wCache 10 1000 "u" (.bodyError "boom") none
    (.error "unused") [66, 10] 10 (by simp) rfl

end MpcAuth
